import Mathlib

/-!
Verification of the location-enrichment pipeline of `src/app/(tabs)/index.tsx`.

The file embeds the enrichment logic shared by the foreground refresh
(`fetchLocationData`, lines 32-74) and the background task callback
(`TaskManager.defineTask`, lines 91-121) as pure Lean functions.  The two
best-effort network calls (elevation lookup, reverse geocoding) are stubbed
by explicit outcome values: an outcome is either a transport/exception
failure (everything the surrounding `try`/`catch` absorbs, including a
response body without a `results` array, whose indexing would throw and be
caught) or a successful response carrying the parsed payload.
-/

namespace ElevationApp

/-- A raw position sample, as destructured from `location.coords`
(`const { latitude, longitude, altitude, accuracy } = location.coords`).
Expo types `latitude`/`longitude` as `number` and `altitude`/`accuracy`
as `number | null`. -/
structure Coords where
  latitude : ℚ
  longitude : ℚ
  altitude : Option ℚ
  accuracy : Option ℚ
  deriving DecidableEq, Repr

/-- The `LocationData` interface of the source (lines 12-18).  The code
stores the resolved elevation in the `altitude` field. -/
structure LocationData where
  latitude : ℚ
  longitude : ℚ
  altitude : Option ℚ
  accuracy : Option ℚ
  address : Option String
  deriving DecidableEq, Repr

/-- One element of the elevation response's `results` array; its
`elevation` field may be null/undefined, which the code handles with
`results[0]?.elevation ?? altitude`. -/
structure ElevEntry where
  elevation : Option ℚ
  deriving DecidableEq, Repr

/-- Outcome of `axios.get` on the elevation service: `failure` is any
rejection of the awaited promise (transport error, timeout, or a shape
whose indexing throws), absorbed by the `catch (e)` branch; `success`
carries the `data.results` array. -/
inductive ElevOutcome where
  | failure
  | success (results : List ElevEntry)
  deriving DecidableEq, Repr

/-- One candidate from `Location.reverseGeocodeAsync`; expo types the
`name`/`city`/`region`/`country` fields as `string | null`. -/
structure GeoCandidate where
  name : Option String
  city : Option String
  region : Option String
  country : Option String
  deriving DecidableEq, Repr

/-- Outcome of `Location.reverseGeocodeAsync`: `failure` is a rejection
absorbed by the `catch (e)` branch; `success` carries the candidate list. -/
inductive GeoOutcome where
  | failure
  | success (results : List GeoCandidate)
  deriving DecidableEq, Repr

/-- JavaScript template-literal rendering of a `string | null` field:
interpolating `null` produces the text "null". -/
def jsInterpolate : Option String → String
  | some s => s
  | none => "null"

/-- The template literal of lines 55-56:
`` `${addressData.name}, ${addressData.city}, ${addressData.region}, ${addressData.country}` ``. -/
def composeAddress (a : GeoCandidate) : String :=
  jsInterpolate a.name ++ ", " ++ jsInterpolate a.city ++ ", " ++
    jsInterpolate a.region ++ ", " ++ jsInterpolate a.country

/-- Elevation resolution, lines 40-49 (identical in the background task,
lines 103-111): `let elevation = altitude;` then, inside `try`,
`elevation = elevationResponse.data.results[0]?.elevation ?? altitude`.
On failure the initial value `altitude` survives; on success, optional
chaining yields `undefined` for an empty array and nullish coalescing
falls back to `altitude` when the chained value is null/undefined. -/
def resolveElevation (altitude : Option ℚ) : ElevOutcome → Option ℚ
  | .failure => altitude
  | .success results =>
    match results.head? with
    | none => altitude
    | some entry =>
      match entry.elevation with
      | some v => some v
      | none => altitude

/-- Foreground address resolution, lines 51-60: `let address = null;`
then, inside `try`, `const addressData = reverseGeocode[0];
address = addressData ? composed-template : 'Address not found'`.
A candidate object is always truthy; `undefined` (empty array) is falsy.
On failure the initial `null` survives. -/
def resolveAddressFg : GeoOutcome → Option String
  | .failure => none
  | .success results =>
    match results.head? with
    | some a => some (composeAddress a)
    | none => some "Address not found"

/-- The enrichment pipeline.  With `resolveAddr = true` this is the body of
`fetchLocationData` after the sample is obtained (lines 39-68); with
`resolveAddr = false` it is the body of the background task callback
(lines 101-119), which runs the same elevation logic but sets the fixed
literal `'Address in background not fetched'` (line 117) instead of
attempting reverse geocoding.  Both code paths build their record from
the sample's latitude, longitude and accuracy unchanged, the resolved
elevation (stored in the `altitude` field), and the resolved address. -/
def enrich (sample : Coords) (resolveAddr : Bool)
    (elevSvc : ElevOutcome) (geoSvc : GeoOutcome) : LocationData :=
  { latitude := sample.latitude
    longitude := sample.longitude
    altitude := resolveElevation sample.altitude elevSvc
    accuracy := sample.accuracy
    address :=
      if resolveAddr then resolveAddressFg geoSvc
      else some "Address in background not fetched" }

/-- Spec-side notion of "the elevation call succeeded and returned a usable
numeric value": the response parsed, its `results` array is non-empty, and
the first entry's `elevation` field holds a number.  Used to compare the
source's fallback chain with the spec's resolution order. -/
def usableElevation : ElevOutcome → Option ℚ
  | .failure => none
  | .success results => results.head?.bind ElevEntry.elevation

/-- The foreground component state touched by `fetchLocationData`:
the `locationData` slot and the `isLoading` flag. -/
structure FgState where
  locationData : LocationData
  isLoading : Bool
  deriving DecidableEq, Repr

/-- Run-to-completion semantics of one `fetchLocationData` invocation
(lines 32-74).  `pos` is the outcome of `Location.getCurrentPositionAsync`;
a rejection there skips straight to the outer `catch` (which only logs), so
`setLocationData` is never called and only the `finally` clause's
`setIsLoading(false)` runs.  The outer `try`/`catch`/`finally` absorbs
every error, so the invocation always terminates normally: this function
is total. -/
def fetchLocationData (st : FgState) (pos : Except String Coords)
    (elevSvc : ElevOutcome) (geoSvc : GeoOutcome) : FgState :=
  match pos with
  | .ok coords =>
    { locationData := enrich coords true elevSvc geoSvc, isLoading := false }
  | .error _ => { st with isLoading := false }

/-- A position sample as a raw JavaScript object: at runtime nothing
enforces the TypeScript annotations, so any field may be absent
(`undefined`/`null`).  Needed to state claims about structurally invalid
samples. -/
structure JSSample where
  latitude : Option ℚ
  longitude : Option ℚ
  altitude : Option ℚ
  accuracy : Option ℚ
  deriving DecidableEq, Repr

/-- The enriched record under raw JavaScript semantics: fields absent in
the sample are passed through as absent. -/
structure JSLocationData where
  latitude : Option ℚ
  longitude : Option ℚ
  altitude : Option ℚ
  accuracy : Option ℚ
  address : Option String
  deriving DecidableEq, Repr

/-- Error kinds the spec attributes to `enrich`. -/
inductive EnrichError where
  | invalidInput
  deriving DecidableEq, Repr

/-- The enrichment body under raw JavaScript runtime semantics, with the
promise's rejection channel made explicit as `Except`.  The code performs
no validation: destructuring an object with absent fields succeeds and
yields `undefined`, which is passed through into the record (an absent
latitude only makes the elevation request URL malformed, i.e. the lookup
outcome is `failure`, already covered by `elevSvc`).  No statement outside
the inner `try`/`catch` blocks can throw, so no branch produces
`.error`. -/
def enrichJS (s : JSSample) (resolveAddr : Bool)
    (elevSvc : ElevOutcome) (geoSvc : GeoOutcome) :
    Except EnrichError JSLocationData :=
  .ok
    { latitude := s.latitude
      longitude := s.longitude
      altitude := resolveElevation s.altitude elevSvc
      accuracy := s.accuracy
      address :=
        if resolveAddr then resolveAddressFg geoSvc
        else some "Address in background not fetched" }

/-- A sample is structurally invalid when latitude or longitude is absent. -/
def structurallyInvalid (s : JSSample) : Prop :=
  s.latitude = none ∨ s.longitude = none

instance (s : JSSample) : Decidable (structurallyInvalid s) := by
  unfold structurallyInvalid; infer_instance

/-- The source's fallback chain computes exactly the spec's resolution
order: the usable service value when there is one, else the sample's
altitude. -/
lemma resolveElevation_eq_usable (alt : Option ℚ) (e : ElevOutcome) :
    resolveElevation alt e = (usableElevation e).elim alt some := by
  cases e with
  | failure => rfl
  | success results =>
    cases results with
    | nil => rfl
    | cons entry rest =>
      cases h : entry.elevation <;>
        simp [resolveElevation, usableElevation, h]

/-- C1: for every sample, the enriched record's elevation follows the
resolution order — the elevation-service value when the call succeeded with
a usable numeric value (regardless of the sample's altitude), else the
sample's device-reported altitude (which may itself be absent, leaving the
elevation absent). -/
theorem elevation_resolution_order (s : Coords) (ra : Bool)
    (e : ElevOutcome) (g : GeoOutcome) :
    (∀ v : ℚ, usableElevation e = some v → (enrich s ra e g).altitude = some v) ∧
    (usableElevation e = none → (enrich s ra e g).altitude = s.altitude) := by
  constructor
  · intro v hv
    simp [enrich, resolveElevation_eq_usable, hv]
  · intro hv
    simp [enrich, resolveElevation_eq_usable, hv]

/-- Witness for C1 at concrete inputs: a usable service value 12 overrides
altitude 10, and a failed call falls back to altitude 10. -/
theorem elevation_resolution_order_witness :
    (enrich ⟨37, -122, some 10, some 5⟩ true
        (.success [⟨some 12⟩]) .failure).altitude = some 12 ∧
    (enrich ⟨37, -122, some 10, some 5⟩ true .failure .failure).altitude =
      some 10 :=
  ⟨(elevation_resolution_order ⟨37, -122, some 10, some 5⟩ true
      (.success [⟨some 12⟩]) .failure).1 12 rfl,
   (elevation_resolution_order ⟨37, -122, some 10, some 5⟩ true
      .failure .failure).2 rfl⟩

/-- C2: for every sample, the enriched record's latitude, longitude and
accuracy are identical to the input sample's. -/
theorem passthrough_fields (s : Coords) (ra : Bool)
    (e : ElevOutcome) (g : GeoOutcome) :
    (enrich s ra e g).latitude = s.latitude ∧
    (enrich s ra e g).longitude = s.longitude ∧
    (enrich s ra e g).accuracy = s.accuracy :=
  ⟨rfl, rfl, rfl⟩

/-- C3: with `resolveAddress = true`, a failed reverse-geocoding lookup
leaves the address absent (null), not a placeholder; `enrich` is a total
function, so no exception reaches the caller. -/
theorem address_absent_on_geo_failure (s : Coords) (e : ElevOutcome) :
    (enrich s true e .failure).address = none :=
  rfl

/-- C4: with `resolveAddress = false` (the background path), the address is
the fixed literal placeholder, whatever the elevation outcome. -/
theorem address_placeholder_background (s : Coords)
    (e : ElevOutcome) (g : GeoOutcome) :
    (enrich s false e g).address = some "Address in background not fetched" :=
  rfl

/-- C5: with `resolveAddress = true`, a successful lookup with zero
candidates yields the fixed "not found" placeholder, which is distinct
from the absent address of a failed lookup. -/
theorem address_not_found_on_zero_candidates (s : Coords) (e : ElevOutcome) :
    (enrich s true e (.success [])).address = some "Address not found" ∧
    (enrich s true e (.success [])).address ≠ (none : Option String) :=
  ⟨rfl, by simp [enrich, resolveAddressFg]⟩

/-- C6 counterexample: at the structurally invalid sample with latitude and
longitude absent, the code does not fail with an InvalidInput error — it
returns a record passing the absent fields through. -/
theorem no_invalid_input_failure :
    structurallyInvalid ⟨none, none, some 10, some 5⟩ ∧
    enrichJS ⟨none, none, some 10, some 5⟩ true .failure .failure =
      .ok ⟨none, none, some 10, some 5, none⟩ :=
  ⟨Or.inl rfl, rfl⟩

/-- C6 amended: `enrich` never fails — for every sample, structurally valid
or not, and regardless of any external-lookup failure, it returns a record;
the code performs no input validation and has no InvalidInput path. -/
theorem enrich_never_fails (s : JSSample) (ra : Bool)
    (e : ElevOutcome) (g : GeoOutcome) :
    ∃ r : JSLocationData, enrichJS s ra e g = .ok r :=
  ⟨_, rfl⟩

/-- C7: the concrete scenario — sample (37.422, -122.084, altitude 10,
accuracy 5), elevation service returning 12.3, geocoding returning the
single Googleplex candidate — produces the expected record, its address
composed from the first candidate's name, city, region and country joined
by ", ". -/
theorem googleplex_scenario :
    enrich ⟨37.422, -122.084, some 10, some 5⟩ true
        (.success [⟨some 12.3⟩])
        (.success [⟨some "Googleplex", some "Mountain View", some "CA",
          some "USA"⟩]) =
      ⟨37.422, -122.084, some 12.3, some 5,
        some "Googleplex, Mountain View, CA, USA"⟩ :=
  rfl

/-- C8: the two lookups are independent — the resolved address does not
depend on the elevation outcome, and the resolved elevation does not depend
on the geocoding outcome. -/
theorem lookups_noninterference (s : Coords) (ra : Bool)
    (e e1 e2 : ElevOutcome) (g g1 g2 : GeoOutcome) :
    (enrich s ra e1 g).address = (enrich s ra e2 g).address ∧
    (enrich s ra e g1).altitude = (enrich s ra e g2).altitude :=
  ⟨rfl, rfl⟩

/-- C9: `enrich` is deterministic — two calls with the same sample, the
same option flag and the same stubbed external responses yield identical
records. -/
theorem enrich_deterministic (s s' : Coords) (ra ra' : Bool)
    (e e' : ElevOutcome) (g g' : GeoOutcome)
    (hs : s = s') (hra : ra = ra') (he : e = e') (hg : g = g') :
    enrich s ra e g = enrich s' ra' e' g' := by
  subst hs hra he hg
  rfl

/-- Witness for C9 at a concrete input. -/
theorem enrich_deterministic_witness :
    enrich ⟨1, 2, none, none⟩ true .failure .failure =
      enrich ⟨1, 2, none, none⟩ true .failure .failure :=
  enrich_deterministic ⟨1, 2, none, none⟩ ⟨1, 2, none, none⟩ true true
    .failure .failure .failure .failure rfl rfl rfl rfl

/-- C10: when the position source fails, the foreground state's stored
record is left unchanged (every field intact); the invocation terminates
normally with only the loading flag cleared, so no error propagates. -/
theorem state_unchanged_on_position_failure (st : FgState) (msg : String)
    (e : ElevOutcome) (g : GeoOutcome) :
    (fetchLocationData st (.error msg) e g).locationData = st.locationData ∧
    (fetchLocationData st (.error msg) e g).isLoading = false :=
  ⟨rfl, rfl⟩

end ElevationApp
